import Mathlib

/-!
# Verification of the Real-time Earthquake Dashboard data pipeline

A shallow embedding of `src/script.js`: the fetch → normalize → filter →
aggregate → present pipeline.  JavaScript numbers are modelled as `Rat`
(no floating-point subtleties arise at the granularity of the claims),
nullable values as `Option`, and the asynchronous fetch as a pure function
over an explicit model of the possible network outcomes.
-/

namespace Dashboard

/-- The `properties` object of a raw GeoJSON feature; every field may be
absent (`null`/`undefined` in JS). -/
structure Props where
  time : Option Int
  mag : Option Rat
  place : Option String
  url : Option String
deriving Repr, DecidableEq

/-- The `geometry` object of a raw feature: a `coordinates` triple
`[lon, lat, depth]`, possibly absent. -/
structure Geometry where
  coordinates : Option (Option Rat × Option Rat × Option Rat)
deriving Repr, DecidableEq

/-- A raw GeoJSON feature as consumed by the script: `id`, `properties`,
`geometry`, each possibly absent. -/
structure RawFeature where
  id : Option String
  properties : Option Props
  geometry : Option Geometry
deriving Repr, DecidableEq

/-- The normalized record built by `normalizeFeatures`. -/
structure NormalizedEvent where
  id : Option String
  time : Option Int
  mag : Option Rat
  place : Option String
  url : Option String
  depth : Option Rat
  lon : Option Rat
  lat : Option Rat
deriving Repr, DecidableEq

/-- The empty `properties` object used by `f.properties || {}`. -/
def emptyProps : Props := ⟨none, none, none, none⟩

/-- One step of `normalizeFeatures`'s `map`: builds the normalized record
for a single feature, with `const props = f.properties || {}` and
`const coords = f.geometry && f.geometry.coordinates ? f.geometry.coordinates
: [null,null,null]`. -/
def normalizeOne (f : RawFeature) : NormalizedEvent :=
  let props := f.properties.getD emptyProps
  let coords := (f.geometry.bind Geometry.coordinates).getD (none, none, none)
  { id := f.id
    time := props.time
    mag := props.mag
    place := props.place
    url := props.url
    depth := coords.2.2
    lon := coords.1
    lat := coords.2.1 }

/-- `normalizeFeatures`: map every feature to a record, then keep only those
with `r.mag != null && r.time != null`. -/
def normalizeFeatures (features : List RawFeature) : List NormalizedEvent :=
  (features.map normalizeOne).filter fun r => r.mag.isSome && r.time.isSome

/-- JS `String.prototype.toLowerCase`, on the characters of the string. -/
def jsToLower (s : String) : String :=
  String.mk (s.data.map Char.toLower)

/-- JS `String.prototype.trim`: strip leading and trailing whitespace. -/
def jsTrim (s : String) : String :=
  String.mk
    (((s.data.dropWhile Char.isWhitespace).reverse.dropWhile
      Char.isWhitespace).reverse)

/-- JS substring test `s.includes(pat)`, on the characters of the strings. -/
def strIncludes (s pat : String) : Bool :=
  decide (List.IsInfix pat.toList s.toList)

/-- The predicate of `filterRecords`'s `records.filter`:
`if (r.mag < minMag) return false; if (regionText) return r.place &&
r.place.toLowerCase().includes(regionText); return true;`.
A `null` magnitude coerces to `0` in the JS `<` comparison. -/
def filterPred (minMag : Rat) (regionText : String) (r : NormalizedEvent) : Bool :=
  if r.mag.getD 0 < minMag then false
  else if regionText ≠ "" then
    match r.place with
    | some p => strIncludes (jsToLower p) regionText
    | none => false
  else true

/-- `filterRecords`: `minMag` is the already-parsed numeric threshold
(`parseFloat(minMagEl.value) || 0`); `region` is the raw text of the region
input, which the function trims and lowercases
(`(regionEl.value || "").trim().toLowerCase()`). -/
def filterRecords (minMag : Rat) (region : String) (records : List NormalizedEvent) :
    List NormalizedEvent :=
  let regionText := jsToLower (jsTrim region)
  records.filter (filterPred minMag regionText)

/-! ## Fetcher -/

/-- The parsed GeoJSON document: `geo.features || []` reads an optional
`features` list. -/
structure GeoDoc where
  features : Option (List RawFeature)
deriving Repr, DecidableEq

/-- The possible outcomes of `await fetch(feed)` / `await res.json()`:
either the network call itself rejects, or a response arrives with an HTTP
status code and a body whose JSON parse may fail. -/
inductive FetchResponse where
  | netError (msg : String)
  | response (status : Nat) (body : Except String GeoDoc)
deriving Repr

/-- `Response.ok`: status in the inclusive range 200–299. -/
def statusOk (s : Nat) : Bool := 200 ≤ s && s < 300

/-- Whether the outcome is one of the failure cases handled by the
`try`/`catch` of `fetchEarthquakes`: network error, non-success HTTP
status, or body parse error. -/
def isFailure : FetchResponse → Bool
  | .netError _ => true
  | .response status body =>
    if !statusOk status then true
    else match body with
      | .error _ => true
      | .ok _ => false

/-- `fetchEarthquakes`, as a pure function of the fetch outcome: returns the
features list together with the status message written to `STATUS`.  All
failures are caught and become `([], "Failed to fetch live data: ...")`;
on success an absent `features` list becomes `[]`. -/
def fetchEarthquakes (resp : FetchResponse) : List RawFeature × String :=
  match resp with
  | .netError msg => ([], "Failed to fetch live data: " ++ msg)
  | .response status body =>
    if !statusOk status then
      ([], "Failed to fetch live data: HTTP " ++ toString status)
    else match body with
      | .error msg => ([], "Failed to fetch live data: " ++ msg)
      | .ok geo =>
        let features := geo.features.getD []
        (features, "Fetched " ++ toString features.length ++ " events")

/-! ## Magnitude aggregator (`buildBarChart`) -/

/-- The mutable `buckets` object of `buildBarChart`. -/
structure MagBuckets where
  b01 : Nat
  b12 : Nat
  b23 : Nat
  b34 : Nat
  b45 : Nat
  b5p : Nat
deriving Repr, DecidableEq

/-- One iteration of `buildBarChart`'s `records.forEach`: the `if`/`else if`
chain on `const m = r.mag` (a `null` magnitude coerces to `0` in the JS
comparisons). -/
def magStep (b : MagBuckets) (r : NormalizedEvent) : MagBuckets :=
  let m := r.mag.getD 0
  if m < 1 then { b with b01 := b.b01 + 1 }
  else if m < 2 then { b with b12 := b.b12 + 1 }
  else if m < 3 then { b with b23 := b.b23 + 1 }
  else if m < 4 then { b with b34 := b.b34 + 1 }
  else if m < 5 then { b with b45 := b.b45 + 1 }
  else { b with b5p := b.b5p + 1 }

/-- `buildBarChart`, reduced to its data content: the `labels`/`data` pair
handed to the chart library, here as label–count pairs in the fixed
insertion order of the `buckets` object literal. -/
def buildBarChart (records : List NormalizedEvent) : List (String × Nat) :=
  let b := records.foldl magStep ⟨0, 0, 0, 0, 0, 0⟩
  [("0-1", b.b01), ("1-2", b.b12), ("2-3", b.b23),
   ("3-4", b.b34), ("4-5", b.b45), ("5+", b.b5p)]

/-! ## Depth aggregator (`buildPieChart`) -/

/-- The mutable `cats` object of `buildPieChart`. -/
structure DepthCats where
  shallow : Nat
  intermediate : Nat
  deep : Nat
deriving Repr, DecidableEq

/-- One iteration of `buildPieChart`'s `records.forEach`:
`const d = r.depth || 0` followed by the boundary chain. -/
def depthStep (c : DepthCats) (r : NormalizedEvent) : DepthCats :=
  let d := r.depth.getD 0
  if d < 70 then { c with shallow := c.shallow + 1 }
  else if d < 300 then { c with intermediate := c.intermediate + 1 }
  else { c with deep := c.deep + 1 }

/-- `buildPieChart`, reduced to its data content: the fixed three labels
paired with the category counts. -/
def buildPieChart (records : List NormalizedEvent) : List (String × Nat) :=
  let c := records.foldl depthStep ⟨0, 0, 0⟩
  [("Shallow (0-70km)", c.shallow),
   ("Intermediate (70-300km)", c.intermediate),
   ("Deep (300+ km)", c.deep)]

/-! ## UTC calendar arithmetic

`new Date(t)` with the `getUTC*` accessors, for an epoch-milliseconds
timestamp `t`, over the proleptic Gregorian calendar (the calendar
JavaScript `Date` uses). -/

/-- Milliseconds elapsed within the UTC day of timestamp `t`. -/
def msOfDay (t : Int) : Nat := (t.emod 86400000).toNat

/-- `Date.prototype.getUTCHours`. -/
def getUTCHours (t : Int) : Nat := msOfDay t / 3600000

/-- Days since the Unix epoch of the UTC day containing `t` (floor). -/
def daysFromEpoch (t : Int) : Int := t.ediv 86400000

/-- Civil (proleptic Gregorian) date from a count of days since 1970-01-01:
`(year, month 1–12, day 1–31)`. -/
def civilFromDays (z0 : Int) : Int × Nat × Nat :=
  let z := z0 + 719468
  let era := z.ediv 146097
  let doe := (z - era * 146097).toNat
  let yoe := (doe - doe / 1460 + doe / 36524 - doe / 146096) / 365
  let doy := doe - (365 * yoe + yoe / 4 - yoe / 100)
  let mp := (5 * doy + 2) / 153
  let d := doy - (153 * mp + 2) / 5 + 1
  let m := if mp < 10 then mp + 3 else mp - 9
  ((if m ≤ 2 then (yoe : Int) + era * 400 + 1 else (yoe : Int) + era * 400), m, d)

/-- `Date.prototype.getUTCMonth() + 1`: month 1–12 of timestamp `t`. -/
def getUTCMonthPlus1 (t : Int) : Nat := (civilFromDays (daysFromEpoch t)).2.1

/-- `Date.prototype.getUTCDate`: day of month 1–31 of timestamp `t`. -/
def getUTCDate (t : Int) : Nat := (civilFromDays (daysFromEpoch t)).2.2

/-! ## Time-series aggregator (`buildLineChart`) -/

/-- The grouping label of `buildLineChart` for a record with timestamp `t`,
by time-window key: `"hour"` → `H:00`; `"day"` → `M/D H:00`; otherwise →
`M/D`. -/
def timeLabel (windowKey : String) (t : Int) : String :=
  if windowKey = "hour" then toString (getUTCHours t) ++ ":00"
  else if windowKey = "day" then
    toString (getUTCMonthPlus1 t) ++ "/" ++ toString (getUTCDate t)
      ++ " " ++ toString (getUTCHours t) ++ ":00"
  else toString (getUTCMonthPlus1 t) ++ "/" ++ toString (getUTCDate t)

/-- `buildLineChart`, reduced to its data content: group the records by
`timeLabel`, sort the distinct labels ascending (`Object.keys(grouped).sort()`),
and pair each label with its count. -/
def buildLineChart (windowKey : String) (records : List NormalizedEvent) :
    List (String × Nat) :=
  let ls := records.map fun r => timeLabel windowKey (r.time.getD 0)
  let keys := List.insertionSort (· ≤ ·) ls.dedup
  keys.map fun l => (l, ls.count l)

/-! ## Map renderer (`updateMap`) -/

/-- The data content of one Leaflet circle marker added by `updateMap`. -/
structure Marker where
  lat : Rat
  lon : Rat
  radius : Rat
  color : String
deriving Repr, DecidableEq

/-- The marker color chain: `r.mag >= 5 ? red : r.mag >= 4 ? orange : blue`
(a `null` magnitude coerces to `0` in the JS comparisons). -/
def markerColor (mag : Option Rat) : String :=
  if 5 ≤ mag.getD 0 then "#ff4d4f"
  else if 4 ≤ mag.getD 0 then "#ff9f40"
  else "#36a2eb"

/-- The marker built for a single record, or `none` when the record is
skipped (`if (r.lat==null || r.lon==null) return`). -/
def markerFor (r : NormalizedEvent) : Option Marker :=
  match r.lat, r.lon with
  | some la, some lo =>
    some { lat := la, lon := lo,
           radius := max 4000 (r.mag.getD 0 * 40000),
           color := markerColor r.mag }
  | _, _ => none

/-- `updateMap`, reduced to its data content: the markers layer after the
call, which replaces all previous markers (`markersLayer.clearLayers()`);
the loop is `records.slice(0,500).forEach`, skipping non-geolocated
records. -/
def updateMap (records : List NormalizedEvent) : List Marker :=
  (records.take 500).filterMap markerFor

/-! ## Bucket membership predicates

The interval each `buildBarChart` branch actually tests (the `else if`
chain makes every interval after the first left-closed), and likewise for
`buildPieChart`. -/

/-- First bar bucket `"0-1"`: the branch `if (m < 1)`. -/
def magQ1 (r : NormalizedEvent) : Bool := decide (r.mag.getD 0 < 1)

/-- Bar bucket `"1-2"`: magnitude in `[1,2)`. -/
def magQ2 (r : NormalizedEvent) : Bool :=
  decide (1 ≤ r.mag.getD 0 ∧ r.mag.getD 0 < 2)

/-- Bar bucket `"2-3"`: magnitude in `[2,3)`. -/
def magQ3 (r : NormalizedEvent) : Bool :=
  decide (2 ≤ r.mag.getD 0 ∧ r.mag.getD 0 < 3)

/-- Bar bucket `"3-4"`: magnitude in `[3,4)`. -/
def magQ4 (r : NormalizedEvent) : Bool :=
  decide (3 ≤ r.mag.getD 0 ∧ r.mag.getD 0 < 4)

/-- Bar bucket `"4-5"`: magnitude in `[4,5)`. -/
def magQ5 (r : NormalizedEvent) : Bool :=
  decide (4 ≤ r.mag.getD 0 ∧ r.mag.getD 0 < 5)

/-- Bar bucket `"5+"`: magnitude `≥ 5`. -/
def magQ6 (r : NormalizedEvent) : Bool := decide (5 ≤ r.mag.getD 0)

/-- Shallow depth category: `d < 70` with `d = r.depth || 0`. -/
def depthShallowQ (r : NormalizedEvent) : Bool := decide (r.depth.getD 0 < 70)

/-- Intermediate depth category: `70 ≤ d < 300`. -/
def depthIntermediateQ (r : NormalizedEvent) : Bool :=
  decide (70 ≤ r.depth.getD 0 ∧ r.depth.getD 0 < 300)

/-- Deep depth category: `d ≥ 300`. -/
def depthDeepQ (r : NormalizedEvent) : Bool := decide (300 ≤ r.depth.getD 0)

/-! ## Concrete fixtures used by the end-to-end check and the
counterexamples -/

/-- Raw feature: magnitude 2.5, time 1000, place "Alaska". -/
def alaskaFeature : RawFeature :=
  { id := some "ak1"
    properties := some
      { time := some 1000, mag := some (mkRat 5 2),
        place := some "Alaska", url := none }
    geometry := none }

/-- Raw feature: magnitude 5.2, time 2000, place "California". -/
def californiaFeature : RawFeature :=
  { id := some "ca1"
    properties := some
      { time := some 2000, mag := some (mkRat 26 5),
        place := some "California", url := none }
    geometry := none }

/-- Raw feature with a missing magnitude, time 3000. -/
def noMagFeature : RawFeature :=
  { id := some "x1"
    properties := some
      { time := some 3000, mag := none, place := none, url := none }
    geometry := none }

/-- The normalized form of `alaskaFeature`. -/
def alaskaRecord : NormalizedEvent :=
  { id := some "ak1", time := some 1000, mag := some (mkRat 5 2),
    place := some "Alaska", url := none, depth := none, lon := none,
    lat := none }

/-- The normalized form of `californiaFeature`. -/
def californiaRecord : NormalizedEvent :=
  { id := some "ca1", time := some 2000, mag := some (mkRat 26 5),
    place := some "California", url := none, depth := none, lon := none,
    lat := none }

/-- Raw feature with a full coordinate triple. -/
def geoFeature : RawFeature :=
  { id := none
    properties := some
      { time := some 0, mag := some 1, place := none, url := none }
    geometry := some { coordinates := some (some 10, some 20, some 30) } }

/-- A record with a negative magnitude (the USGS feed does report
negative-magnitude events). -/
def negMagRecord : NormalizedEvent :=
  { id := none, time := some 0, mag := some (-1), place := none, url := none,
    depth := none, lon := none, lat := none }

/-- A geolocated record. -/
def geoRecord : NormalizedEvent :=
  { id := none, time := some 0, mag := some 1, place := none, url := none,
    depth := none, lon := some 1, lat := some 1 }

/-- A record with no coordinates at all. -/
def bareRecord : NormalizedEvent :=
  { id := none, time := some 0, mag := some 1, place := none, url := none,
    depth := none, lon := none, lat := none }

/-- 501 records whose 500 geolocated members do not all sit within the
first 500 positions: one non-geolocated record followed by 500 geolocated
ones. -/
def mapCexRecords : List NormalizedEvent :=
  bareRecord :: List.replicate 500 geoRecord

/-! ## Helper lemmas -/

theorem foldl_magStep_eq (l : List NormalizedEvent) (b : MagBuckets) :
    l.foldl magStep b =
      ⟨b.b01 + l.countP magQ1, b.b12 + l.countP magQ2, b.b23 + l.countP magQ3,
       b.b34 + l.countP magQ4, b.b45 + l.countP magQ5,
       b.b5p + l.countP magQ6⟩ := by
  induction l generalizing b with
  | nil => simp
  | cons r tl ih =>
    rw [List.foldl_cons, ih]
    by_cases h1 : r.mag.getD 0 < 1
    · have e1 : magQ1 r = true := by
        simp only [magQ1, decide_eq_true_eq]; linarith
      have e2 : magQ2 r = false := by
        simp only [magQ2, decide_eq_false_iff_not]; rintro ⟨ha, hb⟩; linarith
      have e3 : magQ3 r = false := by
        simp only [magQ3, decide_eq_false_iff_not]; rintro ⟨ha, hb⟩; linarith
      have e4 : magQ4 r = false := by
        simp only [magQ4, decide_eq_false_iff_not]; rintro ⟨ha, hb⟩; linarith
      have e5 : magQ5 r = false := by
        simp only [magQ5, decide_eq_false_iff_not]; rintro ⟨ha, hb⟩; linarith
      have e6 : magQ6 r = false := by
        simp only [magQ6, decide_eq_false_iff_not]; intro ha; linarith
      simp [magStep, if_pos h1, List.countP_cons, e1, e2, e3, e4, e5, e6,
        MagBuckets.mk.injEq] <;> omega
    · by_cases h2 : r.mag.getD 0 < 2
      · have e1 : magQ1 r = false := by
          simp only [magQ1, decide_eq_false_iff_not]; exact h1
        have e2 : magQ2 r = true := by
          simp only [magQ2, decide_eq_true_eq]; constructor <;> linarith
        have e3 : magQ3 r = false := by
          simp only [magQ3, decide_eq_false_iff_not]; rintro ⟨ha, hb⟩; linarith
        have e4 : magQ4 r = false := by
          simp only [magQ4, decide_eq_false_iff_not]; rintro ⟨ha, hb⟩; linarith
        have e5 : magQ5 r = false := by
          simp only [magQ5, decide_eq_false_iff_not]; rintro ⟨ha, hb⟩; linarith
        have e6 : magQ6 r = false := by
          simp only [magQ6, decide_eq_false_iff_not]; intro ha; linarith
        simp [magStep, if_neg h1, if_pos h2, List.countP_cons,
          e1, e2, e3, e4, e5, e6, MagBuckets.mk.injEq] <;> omega
      · by_cases h3 : r.mag.getD 0 < 3
        · have e1 : magQ1 r = false := by
            simp only [magQ1, decide_eq_false_iff_not]; exact h1
          have e2 : magQ2 r = false := by
            simp only [magQ2, decide_eq_false_iff_not]
            rintro ⟨ha, hb⟩; linarith
          have e3 : magQ3 r = true := by
            simp only [magQ3, decide_eq_true_eq]; constructor <;> linarith
          have e4 : magQ4 r = false := by
            simp only [magQ4, decide_eq_false_iff_not]
            rintro ⟨ha, hb⟩; linarith
          have e5 : magQ5 r = false := by
            simp only [magQ5, decide_eq_false_iff_not]
            rintro ⟨ha, hb⟩; linarith
          have e6 : magQ6 r = false := by
            simp only [magQ6, decide_eq_false_iff_not]; intro ha; linarith
          simp [magStep, if_neg h1, if_neg h2, if_pos h3, List.countP_cons,
            e1, e2, e3, e4, e5, e6, MagBuckets.mk.injEq] <;> omega
        · by_cases h4 : r.mag.getD 0 < 4
          · have e1 : magQ1 r = false := by
              simp only [magQ1, decide_eq_false_iff_not]; exact h1
            have e2 : magQ2 r = false := by
              simp only [magQ2, decide_eq_false_iff_not]
              rintro ⟨ha, hb⟩; linarith
            have e3 : magQ3 r = false := by
              simp only [magQ3, decide_eq_false_iff_not]
              rintro ⟨ha, hb⟩; linarith
            have e4 : magQ4 r = true := by
              simp only [magQ4, decide_eq_true_eq]; constructor <;> linarith
            have e5 : magQ5 r = false := by
              simp only [magQ5, decide_eq_false_iff_not]
              rintro ⟨ha, hb⟩; linarith
            have e6 : magQ6 r = false := by
              simp only [magQ6, decide_eq_false_iff_not]; intro ha; linarith
            simp [magStep, if_neg h1, if_neg h2, if_neg h3, if_pos h4,
              List.countP_cons, e1, e2, e3, e4, e5, e6, MagBuckets.mk.injEq] <;> omega
          · by_cases h5 : r.mag.getD 0 < 5
            · have e1 : magQ1 r = false := by
                simp only [magQ1, decide_eq_false_iff_not]; exact h1
              have e2 : magQ2 r = false := by
                simp only [magQ2, decide_eq_false_iff_not]
                rintro ⟨ha, hb⟩; linarith
              have e3 : magQ3 r = false := by
                simp only [magQ3, decide_eq_false_iff_not]
                rintro ⟨ha, hb⟩; linarith
              have e4 : magQ4 r = false := by
                simp only [magQ4, decide_eq_false_iff_not]
                rintro ⟨ha, hb⟩; linarith
              have e5 : magQ5 r = true := by
                simp only [magQ5, decide_eq_true_eq]; constructor <;> linarith
              have e6 : magQ6 r = false := by
                simp only [magQ6, decide_eq_false_iff_not]; intro ha; linarith
              simp [magStep, if_neg h1, if_neg h2, if_neg h3, if_neg h4,
                if_pos h5, List.countP_cons, e1, e2, e3, e4, e5, e6,
                MagBuckets.mk.injEq] <;> omega
            · have e1 : magQ1 r = false := by
                simp only [magQ1, decide_eq_false_iff_not]; exact h1
              have e2 : magQ2 r = false := by
                simp only [magQ2, decide_eq_false_iff_not]
                rintro ⟨ha, hb⟩; linarith
              have e3 : magQ3 r = false := by
                simp only [magQ3, decide_eq_false_iff_not]
                rintro ⟨ha, hb⟩; linarith
              have e4 : magQ4 r = false := by
                simp only [magQ4, decide_eq_false_iff_not]
                rintro ⟨ha, hb⟩; linarith
              have e5 : magQ5 r = false := by
                simp only [magQ5, decide_eq_false_iff_not]
                rintro ⟨ha, hb⟩; linarith
              have e6 : magQ6 r = true := by
                simp only [magQ6, decide_eq_true_eq]; linarith
              simp [magStep, if_neg h1, if_neg h2, if_neg h3, if_neg h4,
                if_neg h5, List.countP_cons, e1, e2, e3, e4, e5, e6,
                MagBuckets.mk.injEq] <;> omega

theorem foldl_magStep_sum (l : List NormalizedEvent) (b : MagBuckets) :
    (l.foldl magStep b).b01 + (l.foldl magStep b).b12 +
      (l.foldl magStep b).b23 + (l.foldl magStep b).b34 +
      (l.foldl magStep b).b45 + (l.foldl magStep b).b5p =
      b.b01 + b.b12 + b.b23 + b.b34 + b.b45 + b.b5p + l.length := by
  induction l generalizing b with
  | nil => simp
  | cons r tl ih =>
    rw [List.foldl_cons, ih]
    simp only [magStep]
    split_ifs <;> simp <;> omega

theorem foldl_depthStep_eq (l : List NormalizedEvent) (c : DepthCats) :
    l.foldl depthStep c =
      ⟨c.shallow + l.countP depthShallowQ,
       c.intermediate + l.countP depthIntermediateQ,
       c.deep + l.countP depthDeepQ⟩ := by
  induction l generalizing c with
  | nil => simp
  | cons r tl ih =>
    rw [List.foldl_cons, ih]
    by_cases h1 : r.depth.getD 0 < 70
    · have e1 : depthShallowQ r = true := by
        simp only [depthShallowQ, decide_eq_true_eq]; linarith
      have e2 : depthIntermediateQ r = false := by
        simp only [depthIntermediateQ, decide_eq_false_iff_not]
        rintro ⟨ha, hb⟩; linarith
      have e3 : depthDeepQ r = false := by
        simp only [depthDeepQ, decide_eq_false_iff_not]; intro ha; linarith
      simp [depthStep, if_pos h1, List.countP_cons, e1, e2, e3,
        DepthCats.mk.injEq] <;> omega
    · by_cases h2 : r.depth.getD 0 < 300
      · have e1 : depthShallowQ r = false := by
          simp only [depthShallowQ, decide_eq_false_iff_not]; exact h1
        have e2 : depthIntermediateQ r = true := by
          simp only [depthIntermediateQ, decide_eq_true_eq]
          constructor <;> linarith
        have e3 : depthDeepQ r = false := by
          simp only [depthDeepQ, decide_eq_false_iff_not]; intro ha; linarith
        simp [depthStep, if_neg h1, if_pos h2, List.countP_cons, e1, e2, e3,
          DepthCats.mk.injEq] <;> omega
      · have e1 : depthShallowQ r = false := by
          simp only [depthShallowQ, decide_eq_false_iff_not]; exact h1
        have e2 : depthIntermediateQ r = false := by
          simp only [depthIntermediateQ, decide_eq_false_iff_not]
          rintro ⟨ha, hb⟩; linarith
        have e3 : depthDeepQ r = true := by
          simp only [depthDeepQ, decide_eq_true_eq]; linarith
        simp [depthStep, if_neg h1, if_neg h2, List.countP_cons, e1, e2, e3,
          DepthCats.mk.injEq] <;> omega

theorem foldl_depthStep_sum (l : List NormalizedEvent) (c : DepthCats) :
    (l.foldl depthStep c).shallow + (l.foldl depthStep c).intermediate +
      (l.foldl depthStep c).deep =
      c.shallow + c.intermediate + c.deep + l.length := by
  induction l generalizing c with
  | nil => simp
  | cons r tl ih =>
    rw [List.foldl_cons, ih]
    simp only [depthStep]
    split_ifs <;> simp <;> omega

/-! ## Claim theorems -/

/-- C5 (counterexample): the claim says the `"0-1"` bucket counts records
whose magnitude falls in `[0,1)`.  A record with magnitude `-1` is counted
in the `"0-1"` bucket by `buildBarChart`, yet no record of the input has a
magnitude in `[0,1)`. -/
theorem buildBarChart_interval_counterexample :
    buildBarChart [negMagRecord] =
      [("0-1", 1), ("1-2", 0), ("2-3", 0), ("3-4", 0), ("4-5", 0), ("5+", 0)]
    ∧ ([negMagRecord].countP fun r =>
        decide (0 ≤ r.mag.getD 0 ∧ r.mag.getD 0 < 1)) = 0 := by
  constructor <;> decide

/-- C5 (amended): `buildBarChart` always emits exactly the six labels
`"0-1" … "5+"` in this fixed order, with zero counts for empty buckets;
each bucket counts the records whose magnitude falls in its left-closed,
right-open interval, except that the first bucket counts every magnitude
below 1, negative magnitudes included, and the last counts magnitudes
`≥ 5`. -/
theorem buildBarChart_spec (records : List NormalizedEvent) :
    buildBarChart records =
      [("0-1", records.countP magQ1), ("1-2", records.countP magQ2),
       ("2-3", records.countP magQ3), ("3-4", records.countP magQ4),
       ("4-5", records.countP magQ5), ("5+", records.countP magQ6)] := by
  simp [buildBarChart, foldl_magStep_eq]

/-- C6: `buildPieChart` always emits the three category labels in a fixed
order, counting a record as shallow when `depth < 70`, intermediate when
`70 ≤ depth < 300`, deep when `depth ≥ 300`, with a missing depth treated
as `0` and therefore shallow. -/
theorem buildPieChart_spec (records : List NormalizedEvent) :
    buildPieChart records =
      [("Shallow (0-70km)", records.countP depthShallowQ),
       ("Intermediate (70-300km)", records.countP depthIntermediateQ),
       ("Deep (300+ km)", records.countP depthDeepQ)]
    ∧ ∀ r : NormalizedEvent, r.depth = none → depthShallowQ r = true := by
  constructor
  · simp [buildPieChart, foldl_depthStep_eq]
  · intro r h
    simp [depthShallowQ, h]

/-- C6 (witness): a record with an absent depth is counted as shallow. -/
theorem buildPieChart_spec_witness :
    buildPieChart [bareRecord] =
      [("Shallow (0-70km)", 1), ("Intermediate (70-300km)", 0),
       ("Deep (300+ km)", 0)]
    ∧ depthShallowQ bareRecord = true := by
  have h := buildPieChart_spec [bareRecord]
  exact ⟨by rw [h.1]; decide, h.2 bareRecord rfl⟩

/-- C10: each record is counted in exactly one magnitude bucket and in
exactly one depth category, so both aggregators' counts sum to the length
of the input list. -/
theorem aggregators_sum_counts (records : List NormalizedEvent) :
    ((buildBarChart records).map Prod.snd).sum = records.length
    ∧ ((buildPieChart records).map Prod.snd).sum = records.length := by
  constructor
  · have h := foldl_magStep_sum records ⟨0, 0, 0, 0, 0, 0⟩
    simp at h
    simp [buildBarChart]
    omega
  · have h := foldl_depthStep_sum records ⟨0, 0, 0⟩
    simp at h
    simp [buildPieChart]
    omega

/-- C8: end-to-end on the three specified raw features — magnitude 2.5 at
time 1000 in Alaska, magnitude 5.2 at time 2000 in California, and a
feature with a missing magnitude at time 3000: normalization keeps exactly
two records, filtering at `minMag = 3` with an empty region keeps exactly
the California record, and the magnitude buckets of that filtered result
are `0,0,0,0,0` with `1` in `"5+"`. -/
theorem pipeline_end_to_end :
    normalizeFeatures [alaskaFeature, californiaFeature, noMagFeature] =
      [alaskaRecord, californiaRecord]
    ∧ filterRecords 3 "" [alaskaRecord, californiaRecord] = [californiaRecord]
    ∧ buildBarChart [californiaRecord] =
      [("0-1", 0), ("1-2", 0), ("2-3", 0), ("3-4", 0), ("4-5", 0),
       ("5+", 1)] := by
  refine ⟨by decide, by decide, by decide⟩

/-- C1: every failing fetch outcome (network error, non-success HTTP
status, or parse error) yields an empty feature sequence and a status
message of the form `Failed to fetch live data: …` — the function is total,
so no error ever propagates to the caller — and a successful response with
an absent `features` list yields the empty sequence with the normal success
message. -/
theorem fetchEarthquakes_spec (resp : FetchResponse) (status : Nat)
    (geo : GeoDoc) (hfail : isFailure resp = true)
    (hok : statusOk status = true) (hfeat : geo.features = none) :
    ((fetchEarthquakes resp).1 = [] ∧
      ∃ m, (fetchEarthquakes resp).2 = "Failed to fetch live data: " ++ m)
    ∧ fetchEarthquakes (.response status (.ok geo)) =
      ([], "Fetched 0 events") := by
  constructor
  · cases resp with
    | netError msg => exact ⟨rfl, msg, rfl⟩
    | response st body =>
      unfold isFailure at hfail
      by_cases hst : statusOk st = true
      · cases body with
        | error msg =>
          exact ⟨by simp [fetchEarthquakes, hst], msg,
            by simp [fetchEarthquakes, hst]⟩
        | ok g => simp [hst] at hfail
      · have hst' : statusOk st = false := Bool.eq_false_iff.mpr hst
        refine ⟨by simp [fetchEarthquakes, hst'], "HTTP " ++ toString st, ?_⟩
        simp only [fetchEarthquakes, hst', Bool.not_false, if_true]
        rw [show ("Failed to fetch live data: HTTP " : String) =
          "Failed to fetch live data: " ++ "HTTP " from by decide,
          String.append_assoc]
  · simp only [fetchEarthquakes, hok, Bool.not_true, Bool.false_eq_true,
      if_false, hfeat]
    decide

/-- C1 (witness): a failing outcome and a featureless success, concretely. -/
theorem fetchEarthquakes_spec_witness :
    ((fetchEarthquakes (.netError "boom")).1 = [] ∧
      ∃ m, (fetchEarthquakes (.netError "boom")).2 =
        "Failed to fetch live data: " ++ m)
    ∧ fetchEarthquakes (.response 200 (.ok ⟨none⟩)) =
      ([], "Fetched 0 events") :=
  fetchEarthquakes_spec (.netError "boom") 200 ⟨none⟩ rfl (by decide) rfl

/-- C2: `normalizeFeatures` keeps the mapped records in their original
relative order (a sublist of the full map), keeps exactly those records
whose `mag` and `time` are present, and `normalizeOne` maps the coordinate
triple positionally to `lon`, `lat`, `depth`, substituting `null` for each
of them when the triple is missing. -/
theorem normalizeFeatures_spec (fs : List RawFeature) :
    (normalizeFeatures fs).Sublist (fs.map normalizeOne)
    ∧ (∀ r ∈ normalizeFeatures fs, r.mag.isSome ∧ r.time.isSome)
    ∧ (∀ f ∈ fs, (normalizeOne f).mag.isSome → (normalizeOne f).time.isSome →
        normalizeOne f ∈ normalizeFeatures fs)
    ∧ (∀ f : RawFeature, f.geometry.bind Geometry.coordinates = none →
        (normalizeOne f).lon = none ∧ (normalizeOne f).lat = none ∧
          (normalizeOne f).depth = none)
    ∧ (∀ (f : RawFeature) (lo la dp : Option Rat),
        f.geometry.bind Geometry.coordinates = some (lo, la, dp) →
        (normalizeOne f).lon = lo ∧ (normalizeOne f).lat = la ∧
          (normalizeOne f).depth = dp) := by
  refine ⟨List.filter_sublist _, ?_, ?_, ?_, ?_⟩
  · intro r hr
    rw [normalizeFeatures, List.mem_filter] at hr
    have h2 := hr.2
    simp only [Bool.and_eq_true] at h2
    exact h2
  · intro f hf hm ht
    rw [normalizeFeatures, List.mem_filter]
    exact ⟨List.mem_map_of_mem _ hf, by simp [hm, ht]⟩
  · intro f h
    simp [normalizeOne, h]
  · intro f lo la dp h
    simp [normalizeOne, h]

/-- C2 (witness): a feature with a full coordinate triple is normalized,
retained, and its coordinates land positionally in `lon`, `lat`, `depth`. -/
theorem normalizeFeatures_spec_witness :
    normalizeOne geoFeature ∈ normalizeFeatures [geoFeature]
    ∧ (normalizeOne geoFeature).lon = some 10
    ∧ (normalizeOne geoFeature).lat = some 20
    ∧ (normalizeOne geoFeature).depth = some 30 := by
  have h := normalizeFeatures_spec [geoFeature]
  have h5 := h.2.2.2.2 geoFeature (some 10) (some 20) (some 30) rfl
  exact ⟨h.2.2.1 geoFeature (by decide) (by decide) (by decide),
    h5.1, h5.2.1, h5.2.2⟩

/-- C3: the filter is monotone in the minimum-magnitude threshold — with
the region fixed, any record retained at threshold `b` is retained at any
lower threshold `a`. -/
theorem filterRecords_monotone (a b : Rat) (region : String)
    (records : List NormalizedEvent) (hab : a ≤ b) (r : NormalizedEvent)
    (hr : r ∈ filterRecords b region records) :
    r ∈ filterRecords a region records := by
  unfold filterRecords at hr ⊢
  rw [List.mem_filter] at hr ⊢
  refine ⟨hr.1, ?_⟩
  have hp := hr.2
  unfold filterPred at hp ⊢
  by_cases h1 : r.mag.getD 0 < b
  · rw [if_pos h1] at hp
    exact absurd hp (by simp)
  · rw [if_neg h1] at hp
    rw [if_neg fun h => h1 (lt_of_lt_of_le h hab)]
    exact hp

/-- C3 (witness): a record passing the filter at threshold 3 also passes at
threshold 1. -/
theorem filterRecords_monotone_witness :
    californiaRecord ∈ filterRecords 1 "" [californiaRecord] :=
  filterRecords_monotone 1 3 "" [californiaRecord] (by norm_num)
    californiaRecord (by decide)

/-- Characterization of the filter predicate in terms of the effective
(trimmed, lowercased) region text. -/
theorem filterPred_eq_true (minMag : Rat) (rt : String)
    (r : NormalizedEvent) :
    filterPred minMag rt r = true ↔
      minMag ≤ r.mag.getD 0 ∧
        (rt = "" ∨ ∃ p, r.place = some p ∧
          strIncludes (jsToLower p) rt = true) := by
  unfold filterPred
  by_cases hm : r.mag.getD 0 < minMag
  · simp [hm, not_le.mpr hm]
  · by_cases hrt : rt = ""
    · simp [hm, hrt, not_lt.mp hm]
    · cases hp : r.place with
      | none => simp [hm, hrt, hp]
      | some p => simp [hm, hrt, hp, not_lt.mp hm]

/-- C4 (counterexample): the claim as stated fails for a regionSubstring
made of whitespace.  The string `" "` is non-empty, and the place
`"California"` does not contain it (case-insensitively or otherwise), so
the claim demands the record be excluded — yet `filterRecords` retains it,
because it trims the region text to `""` first. -/
theorem filterRecords_region_trim_counterexample :
    (" " : String) ≠ ""
    ∧ filterRecords 0 " " [californiaRecord] = [californiaRecord]
    ∧ strIncludes (jsToLower "California") " " = false := by
  refine ⟨by decide, by decide, by decide⟩

/-- C4 (amended): `filterRecords` is order-preserving, and — with the
region input first trimmed of surrounding whitespace and lowercased — it
retains exactly the records with `mag ≥ minMag` that additionally, when the
trimmed region text is non-empty, have a present `place` containing it
case-insensitively; a whitespace-only or empty region input disables the
place check. -/
theorem filterRecords_spec (minMag : Rat) (region : String)
    (records : List NormalizedEvent) :
    (filterRecords minMag region records).Sublist records
    ∧ (∀ r, r ∈ filterRecords minMag region records ↔
        r ∈ records ∧ minMag ≤ r.mag.getD 0 ∧
          (jsToLower (jsTrim region) = "" ∨
            ∃ p, r.place = some p ∧
              strIncludes (jsToLower p) (jsToLower (jsTrim region)) = true)) := by
  constructor
  · exact List.filter_sublist _
  · intro r
    rw [filterRecords, List.mem_filter, filterPred_eq_true]

/-- C4 (witness): a record whose place contains the region text
case-insensitively is retained. -/
theorem filterRecords_spec_witness :
    californiaRecord ∈ filterRecords 0 "CAL" [californiaRecord] := by
  have h := (filterRecords_spec 0 "CAL" [californiaRecord]).2 californiaRecord
  exact h.mpr ⟨by decide, by decide,
    Or.inr ⟨"California", rfl, by decide⟩⟩

/-- C7: the time-series aggregator emits the distinct labels sorted
lexicographically ascending, without duplicates, pairing each label with
the number of records mapped to it; the label of a record is derived from
its UTC timestamp by the window key — `"hour"` gives `H:00`, `"day"` gives
`M/D H:00`, and any other key gives `M/D`. -/
theorem buildLineChart_spec (windowKey : String)
    (records : List NormalizedEvent) :
    List.Sorted (· ≤ ·) ((buildLineChart windowKey records).map Prod.fst)
    ∧ ((buildLineChart windowKey records).map Prod.fst).Nodup
    ∧ (∀ l c, (l, c) ∈ buildLineChart windowKey records ↔
        l ∈ records.map (fun r => timeLabel windowKey (r.time.getD 0)) ∧
          c = (records.map (fun r => timeLabel windowKey (r.time.getD 0))).count l)
    ∧ (∀ t, timeLabel "hour" t = toString (getUTCHours t) ++ ":00")
    ∧ (∀ t, timeLabel "day" t =
        toString (getUTCMonthPlus1 t) ++ "/" ++ toString (getUTCDate t) ++
          " " ++ toString (getUTCHours t) ++ ":00")
    ∧ (∀ wk t, wk ≠ "hour" → wk ≠ "day" →
        timeLabel wk t =
          toString (getUTCMonthPlus1 t) ++ "/" ++ toString (getUTCDate t)) := by
  have hkeys : (buildLineChart windowKey records).map Prod.fst =
      List.insertionSort (· ≤ ·)
        (records.map (fun r => timeLabel windowKey (r.time.getD 0))).dedup := by
    simp [buildLineChart, List.map_map, Function.comp_def]
  refine ⟨?_, ?_, ?_, ?_, ?_, ?_⟩
  · rw [hkeys]
    exact List.sorted_insertionSort _ _
  · rw [hkeys]
    exact ((List.perm_insertionSort _ _).nodup_iff).mpr (List.nodup_dedup _)
  · intro l c
    rw [buildLineChart, List.mem_map]
    constructor
    · rintro ⟨a, ha, heq⟩
      injection heq with h1 h2
      subst h1
      subst h2
      exact ⟨List.mem_dedup.mp ((List.mem_insertionSort _).mp ha), rfl⟩
    · rintro ⟨hl, rfl⟩
      exact ⟨l, (List.mem_insertionSort _).mpr (List.mem_dedup.mpr hl), rfl⟩
  · intro t
    simp [timeLabel]
  · intro t
    simp [timeLabel]
  · intro wk t h1 h2
    simp [timeLabel, h1, h2]

/-- C7 (witness): the week label of the epoch timestamp, via the theorem's
label-derivation clause. -/
theorem buildLineChart_spec_witness :
    timeLabel "week" 0 =
      toString (getUTCMonthPlus1 0) ++ "/" ++ toString (getUTCDate 0) :=
  (buildLineChart_spec "week" []).2.2.2.2.2 "week" 0 (by decide) (by decide)

set_option maxRecDepth 40000 in
/-- C9 (counterexample): the claim as stated — a marker for each of up to
the first 500 geolocated records — fails when a non-geolocated record sits
among the first 500 positions.  With one non-geolocated record followed by
500 geolocated ones, the list contains 500 geolocated records, yet only 499
markers are drawn, because the code slices the first 500 positions before
skipping non-geolocated records. -/
theorem updateMap_first500_counterexample :
    (mapCexRecords.countP fun r => r.lat.isSome && r.lon.isSome) = 500
    ∧ (updateMap mapCexRecords).length = 499 := by
  constructor <;> decide

/-- C9 (amended): `updateMap` replaces the whole markers layer with at most
500 markers: one for each geolocated record among the first 500 records of
the sorted list (non-geolocated records among the first 500 are skipped,
not replaced by later ones), the marker carrying the record's coordinates,
radius `max(4000, mag*40000)` metres, and the magnitude-tier color (red for
`mag ≥ 5`, orange for `mag ≥ 4`, blue otherwise). -/
theorem updateMap_spec (records : List NormalizedEvent) :
    (updateMap records).length ≤ 500
    ∧ (∀ m ∈ updateMap records, ∃ r ∈ records.take 500,
        r.lat = some m.lat ∧ r.lon = some m.lon ∧
        m.radius = max 4000 (r.mag.getD 0 * 40000) ∧
        m.color = (if 5 ≤ r.mag.getD 0 then "#ff4d4f"
                   else if 4 ≤ r.mag.getD 0 then "#ff9f40" else "#36a2eb"))
    ∧ (∀ r ∈ records.take 500, r.lat.isSome → r.lon.isSome →
        ∃ m ∈ updateMap records, markerFor r = some m) := by
  refine ⟨?_, ?_, ?_⟩
  · calc (updateMap records).length
        ≤ (records.take 500).length := List.length_filterMap_le _ _
      _ ≤ 500 := List.length_take_le _ _
  · intro m hm
    rw [updateMap, List.mem_filterMap] at hm
    obtain ⟨r, hr, hmk⟩ := hm
    refine ⟨r, hr, ?_⟩
    unfold markerFor at hmk
    cases hla : r.lat with
    | none => rw [hla] at hmk; exact absurd hmk (by simp)
    | some la =>
      cases hlo : r.lon with
      | none => rw [hla, hlo] at hmk; exact absurd hmk (by simp)
      | some lo =>
        rw [hla, hlo] at hmk
        obtain rfl := Option.some.injEq .. ▸ hmk
        exact ⟨rfl, rfl, rfl, rfl⟩
  · intro r hr hla hlo
    obtain ⟨la, hla'⟩ := Option.isSome_iff_exists.mp hla
    obtain ⟨lo, hlo'⟩ := Option.isSome_iff_exists.mp hlo
    refine ⟨{ lat := la, lon := lo,
              radius := max 4000 (r.mag.getD 0 * 40000),
              color := markerColor r.mag }, ?_, ?_⟩
    · rw [updateMap, List.mem_filterMap]
      exact ⟨r, hr, by simp [markerFor, hla', hlo']⟩
    · simp [markerFor, hla', hlo']

/-- C9 (witness): a single geolocated record yields its marker. -/
theorem updateMap_spec_witness :
    ∃ m ∈ updateMap [geoRecord], markerFor geoRecord = some m :=
  (updateMap_spec [geoRecord]).2.2 geoRecord (by decide) (by decide)
    (by decide)

end Dashboard
